import Mathlib

/-!
Shallow embedding of `Assignment1.py` (an interactive CLI contact book,
class `CliHelperBot`) and proofs of its specification's claims.

Modelling decisions:
* The contact store `CliHelperBot._users_cache` is a Python `dict` from
  username to phone.  We model it as an insertion-ordered association
  list `Store := List (String × String)` with at most one entry per key;
  `dict` item assignment keeps the position of an existing key and
  appends a new one, which `update_number` mirrors.
* The exception hierarchy (`CommandNotSupported`, `CliHelperSigStop`,
  `CommandOperationalError`) becomes the inductive `CliErr`; a handler
  returns `Except CliErr (String × Store)`: either the output string and
  the store after the call, or a raised exception.  All handlers raise
  before they mutate, so on `.error` the store is the caller's store.
* The `input_error(error_msg_base)` decorator becomes `input_error`: it
  catches `operational` and `notSupported`, turning them into an `.ok`
  output string `base ++ ": " ++ msg` with the store as it was at the
  `except` (unchanged, since handlers raise before mutating); other
  exceptions (the stop signal) propagate.
* Python `str.split()` (split on whitespace runs, discarding empties)
  becomes `pySplit`; `str.casefold` becomes `casefold`, per-character
  ASCII lowercasing, which agrees with Python on the ASCII inputs the
  command language uses.
* Calling a handler through `supported_commands[command](*args)` becomes
  the dispatch `execute_inner`; `stop` takes exactly one positional
  argument, so unpacking any other arity raises a `TypeError`, modelled
  by `CliErr.typeError` (uncaught by any wrapper, hence fatal).
* One iteration of `main`'s loop becomes `main_step`: parse the line,
  execute, and classify the outcome as a printed success line and a new
  store, a clean stop printing the signal's message, or a fatal crash
  (the `except Exception` re-raise path, and the `ValueError` that
  unpacking `parse_input`'s empty split raises on a blank line).
-/

/-- Python `str.split()` tokenizer: split on runs of whitespace, discard
empty tokens.  `acc` holds the current token's characters reversed. -/
def pySplitGo : List Char → List Char → List String
  | [], acc => if acc.isEmpty then [] else [String.mk acc.reverse]
  | c :: cs, acc =>
    if c.isWhitespace then
      if acc.isEmpty then pySplitGo cs [] else String.mk acc.reverse :: pySplitGo cs []
    else
      pySplitGo cs (c :: acc)

/-- `user_input.split()` in `parse_input`. -/
def pySplit (s : String) : List String := pySplitGo s.data []

/-- `str.casefold()`: on the ASCII fragment this program works with it is
per-character lowercasing, which `Char.toLower` performs. -/
def casefold (s : String) : String := String.mk (s.data.map Char.toLower)

/-- `" ".join(args)`. -/
def joinSp (args : List String) : String := String.intercalate " " args

/-- The contact store `CliHelperBot._users_cache`, an insertion-ordered
mapping from username to phone. -/
abbrev Store := List (String × String)

/-- `username in self._users_cache`. -/
def contains (st : Store) (u : String) : Bool := st.any (fun e => e.1 == u)

/-- `self._users_cache[username]` as a lookup: the phone if present. -/
def getPhone (st : Store) (u : String) : Option String :=
  (st.find? (fun e => e.1 == u)).map (fun e => e.2)

/-- `CliHelperBot._update_number`: `self._users_cache[username] = phone`.
Python dict assignment keeps an existing key's position and updates its
value, and appends a fresh key at the end. -/
def update_number (st : Store) (u p : String) : Store :=
  if contains st u then
    st.map (fun e => if e.1 == u then (e.1, p) else e)
  else
    st ++ [(u, p)]

/-- The exception taxonomy of `Assignment1.py`: `CommandNotSupported`,
`CliHelperSigStop`, `CommandOperationalError`, plus the built-in
`TypeError` that `stop(*args)` unpacking can raise. -/
inductive CliErr where
  | notSupported (msg : String)
  | sigStop (msg : String)
  | operational (msg : String)
  | typeError
deriving DecidableEq, Repr

/-- The `input_error(error_msg_base)` decorator: run the handler body;
catch `CommandOperationalError` and `CommandNotSupported`, returning
`f"{error_msg_base}: {e}"` with the store as it stood when the exception
was raised (every handler raises before mutating, so that is the store
the handler was called with); let anything else propagate. -/
def input_error (base : String) (st : Store) :
    Except CliErr (String × Store) → Except CliErr (String × Store)
  | .ok v => .ok v
  | .error (.operational m) => .ok (base ++ ": " ++ m, st)
  | .error (.notSupported m) => .ok (base ++ ": " ++ m, st)
  | .error e => .error e

/-- `CliHelperBot.stop`: raise `CliHelperSigStop(message)`. -/
def stop (message : String) : Except CliErr (String × Store) :=
  .error (.sigStop message)

/-- The farewell string `parse_input` builds for `close`/`exit`. -/
def farewell (command : String) : String :=
  "Command '" ++ command ++ "' received. Good buy!"

/-- `CliHelperBot.parse_input`: split the line on whitespace, the first
token case-folded is the command, the rest are the args; for `close` and
`exit` the args are replaced by the synthetic farewell.  An empty split
makes the `command, *args = ...` unpacking raise `ValueError`: `none`. -/
def parse_input (user_input : String) : Option (String × List String) :=
  match pySplit user_input with
  | [] => none
  | c :: args =>
    let command := casefold c
    if command = "close" ∨ command = "exit" then
      some (command, [farewell command])
    else
      some (command, args)

/-- The warning line `say_hello` and `print_all_contacts` prepend when
called with arguments. -/
def argsWarning (args : List String) : String :=
  "Warning: Command doesn't expect any arguments. Received: " ++ joinSp args ++ "\n"

/-- `CliHelperBot.say_hello`. -/
def say_hello (args : List String) : String :=
  (if args.isEmpty then "" else argsWarning args) ++ "How can I help you?"

/-- The arity message `add_contact` and `change_contact` raise. -/
def twoArgsMsg (args : List String) : String :=
  "command expects an input of two arguments: username and phone, separated by a space. Received: "
    ++ joinSp args

/-- The duplicate-user message `add_contact` raises. -/
def alreadyExistMsg (username : String) : String :=
  "user with username " ++ username
    ++ " already exist. If you want to update number, please use 'change' command."

/-- `CliHelperBot.add_contact`, body inside the decorator: arity check,
duplicate check, then `_update_number` and the confirmation string. -/
def add_contact_inner (st : Store) (args : List String) : Except CliErr (String × Store) :=
  if args.length ≠ 2 then
    .error (.operational (twoArgsMsg args))
  else
    let username := args.getD 0 ""
    let phone := args.getD 1 ""
    if contains st username then
      .error (.operational (alreadyExistMsg username))
    else
      .ok ("Contact " ++ username ++ " created with phone: " ++ phone ++ ".",
           update_number st username phone)

/-- `CliHelperBot.add_contact` as called: decorated with
`input_error(error_msg_base="Command 'add' failed")`. -/
def add_contact (st : Store) (args : List String) : Except CliErr (String × Store) :=
  input_error "Command 'add' failed" st (add_contact_inner st args)

/-- The missing-user message `change_contact` raises. -/
def doesntExistMsg (username : String) : String :=
  "user with username " ++ username
    ++ " doesn't exist. If you want to add number, please use 'add' command."

/-- `CliHelperBot.change_contact`, body inside the decorator. -/
def change_contact_inner (st : Store) (args : List String) : Except CliErr (String × Store) :=
  if args.length ≠ 2 then
    .error (.operational (twoArgsMsg args))
  else
    let username := args.getD 0 ""
    let phone := args.getD 1 ""
    if contains st username then
      .ok ("Contact " ++ username ++ " updated with phone: " ++ phone ++ ".",
           update_number st username phone)
    else
      .error (.operational (doesntExistMsg username))

/-- `CliHelperBot.change_contact` as called: decorated with
`input_error(error_msg_base="Command 'update' failed")`. -/
def change_contact (st : Store) (args : List String) : Except CliErr (String × Store) :=
  input_error "Command 'update' failed" st (change_contact_inner st args)

/-- `CliHelperBot._print_user_phone`. -/
def print_user_phone (username phone : String) : String :=
  "User " ++ username ++ " phone: " ++ phone

/-- The arity message `get_contact` raises. -/
def oneArgMsg (args : List String) : String :=
  "command expects an input of one argument: username. Received: " ++ joinSp args

/-- The missing-user message `get_contact` raises. -/
def tryAnotherMsg (username : String) : String :=
  "user with username " ++ username ++ " doesn't exist. Try another username."

/-- `CliHelperBot.get_contact`, body inside the decorator: arity check,
existence check, then the `Record found` line. -/
def get_contact_inner (st : Store) (args : List String) : Except CliErr (String × Store) :=
  if args.length ≠ 1 then
    .error (.operational (oneArgMsg args))
  else
    let username := args.getD 0 ""
    if contains st username then
      let user_phone := (getPhone st username).getD ""
      .ok ("Record found: \n" ++ print_user_phone username user_phone, st)
    else
      .error (.operational (tryAnotherMsg username))

/-- `CliHelperBot.get_contact` as called: decorated with
`input_error(error_msg_base="Command 'phone' failed")`. -/
def get_contact (st : Store) (args : List String) : Except CliErr (String × Store) :=
  input_error "Command 'phone' failed" st (get_contact_inner st args)

/-- `CliHelperBot.print_all_contacts`: optional warning, the header, then
one line per cached contact in the store's (insertion) order. -/
def print_all_contacts (st : Store) (args : List String) : String :=
  (if args.isEmpty then "" else argsWarning args)
    ++ "All Records: \n"
    ++ String.join (st.map (fun e => "\n" ++ print_user_phone e.1 e.2))

/-- The keys of `self.supported_commands`, in the order `__init__` builds
the table. -/
def supported_commands : List String :=
  ["close", "exit", "hello", "add", "change", "phone", "all"]

/-- The body of `CliHelperBot.execute_command` inside its decorator:
check membership in `supported_commands`, raise `CommandNotSupported`
otherwise, and call the mapped handler with the args unpacked.  `stop`
takes exactly one positional argument, so any other arity raises
`TypeError`. -/
def execute_inner (st : Store) (command : String) (args : List String) :
    Except CliErr (String × Store) :=
  if command = "close" ∨ command = "exit" then
    match args with
    | [m] => stop m
    | _ => .error .typeError
  else if command = "hello" then .ok (say_hello args, st)
  else if command = "add" then add_contact st args
  else if command = "change" then change_contact st args
  else if command = "phone" then get_contact st args
  else if command = "all" then .ok (print_all_contacts st args, st)
  else .error (.notSupported ("command '" ++ command ++ "' is not supported!"))

/-- `CliHelperBot.execute_command` as called: decorated with
`input_error(error_msg_base="Command execution failed")`. -/
def execute_command (st : Store) (command : String) (args : List String) :
    Except CliErr (String × Store) :=
  input_error "Command execution failed" st (execute_inner st command args)

/-- The outcome of one iteration of `CliHelperBot.main`'s loop. -/
inductive StepResult where
  | continued (printed : String) (st : Store)
  | stopped (printed : String)
  | fatal
deriving DecidableEq

/-- The dispatch-and-catch part of one loop iteration of
`CliHelperBot.main`, after parsing: execute, print the success frame and
continue; on `CliHelperSigStop` print its message and break; on any
other exception print a diagnostic and re-raise (fatal). -/
def loop_step (st : Store) (command : String) (args : List String) : StepResult :=
  match execute_command st command args with
  | .ok (out, st') =>
      .continued ("Command '" ++ command ++ "' executed successfully. Result is:\n" ++ out) st'
  | .error (.sigStop m) => .stopped m
  | .error _ => .fatal

/-- One full iteration of `CliHelperBot.main`'s loop on a raw input
line; a line `parse_input` cannot unpack raises `ValueError`, caught
only by the fatal `except Exception` branch. -/
def main_step (st : Store) (user_input : String) : StepResult :=
  match parse_input user_input with
  | none => .fatal
  | some (command, args) => loop_step st command args

/-- A `CliHelperBot` instance as `__init__` leaves it: it holds only the
command table; the contact store is the class attribute `_users_cache`,
not instance state, so it does not appear among an instance's fields. -/
structure BotInstance where
  commands : List String
deriving DecidableEq

/-- `CliHelperBot()`: `__init__` builds `supported_commands` and touches
nothing else; the class-level store is passed through unchanged. -/
def construct (cache : Store) : BotInstance × Store :=
  (⟨supported_commands⟩, cache)

/-- `self._update_number(...)` through an instance: item assignment on
`self._users_cache` resolves to the class attribute and mutates the one
shared dict, whichever instance `self` is. -/
def add_contact_via (_self : BotInstance) (st : Store) (args : List String) :
    Except CliErr (String × Store) :=
  add_contact st args

/-- `self.get_contact(...)` through an instance: reads the one shared
class-level dict, whichever instance `self` is. -/
def get_contact_via (_self : BotInstance) (st : Store) (args : List String) :
    Except CliErr (String × Store) :=
  get_contact st args

/-- `needle` occurs as a contiguous substring of `hay`. -/
def containsStr (hay needle : String) : Prop := needle.data <:+: hay.data

instance (hay needle : String) : Decidable (containsStr hay needle) :=
  inferInstanceAs (Decidable (needle.data <:+: hay.data))

/-! ### Store lemmas -/

theorem getPhone_cons_eq (u v : String) (t : Store) :
    getPhone ((u, v) :: t) u = some v := by
  simp [getPhone, List.find?_cons]

theorem getPhone_cons_ne (k v u : String) (t : Store) (h : (k == u) = false) :
    getPhone ((k, v) :: t) u = getPhone t u := by
  simp [getPhone, List.find?_cons, h]

theorem contains_cons (e : String × String) (t : Store) (u : String) :
    contains (e :: t) u = (e.1 == u || contains t u) := by
  simp [contains]

theorem getPhone_none_of_not_contains (st : Store) (u : String)
    (h : contains st u = false) : getPhone st u = none := by
  induction st with
  | nil => rfl
  | cons e t ih =>
    rw [contains_cons, Bool.or_eq_false_iff] at h
    obtain ⟨k, v⟩ := e
    rw [getPhone_cons_ne k v u t h.1]
    exact ih h.2

theorem contains_of_getPhone_some (st : Store) (u p : String)
    (h : getPhone st u = some p) : contains st u = true := by
  cases hc : contains st u with
  | false => rw [getPhone_none_of_not_contains st u hc] at h; cases h
  | true => rfl

theorem getPhone_append_single (st : Store) (u p : String)
    (h : contains st u = false) : getPhone (st ++ [(u, p)]) u = some p := by
  induction st with
  | nil => simpa using getPhone_cons_eq u p []
  | cons e t ih =>
    rw [contains_cons, Bool.or_eq_false_iff] at h
    obtain ⟨k, v⟩ := e
    rw [List.cons_append, getPhone_cons_ne k v u _ h.1]
    exact ih h.2

theorem getPhone_map_overwrite (st : Store) (u p : String)
    (h : contains st u = true) :
    getPhone (st.map (fun e => if e.1 == u then (e.1, p) else e)) u = some p := by
  induction st with
  | nil => simp [contains] at h
  | cons e t ih =>
    obtain ⟨k, v⟩ := e
    rw [List.map_cons]
    cases he : (k == u) with
    | true =>
      have hk : k = u := by simpa using he
      subst hk
      simp [getPhone_cons_eq]
    | false =>
      rw [contains_cons] at h
      simp only [he, Bool.false_or] at h
      simp only [Bool.false_eq_true, if_false]
      rw [getPhone_cons_ne k v u _ he]
      exact ih h

theorem getPhone_update_number (st : Store) (u p : String) :
    getPhone (update_number st u p) u = some p := by
  unfold update_number
  cases hc : contains st u with
  | true => simpa using getPhone_map_overwrite st u p hc
  | false => simpa using getPhone_append_single st u p hc

/-! ### Substring lemmas -/

theorem containsStr_of_data (hay needle : String) (s t : List Char)
    (h : s ++ needle.data ++ t = hay.data) : containsStr hay needle := ⟨s, t, h⟩

theorem containsStr_append_right (a b : String) : containsStr (a ++ b) b :=
  ⟨a.data, [], by simp [String.data_append]⟩

theorem containsStr_append_left (a t n : String) (h : containsStr t n) :
    containsStr (a ++ t) n := by
  obtain ⟨s, u, hu⟩ := h
  exact ⟨a.data ++ s, u, by rw [String.data_append, ← hu]; simp⟩

/-! ### Claims -/

/-- C2: for every input line with at least one whitespace-separated token,
`parse_input` returns the first token case-folded as the command and the
remaining tokens in order as args, except that for `close`/`exit` the
args are replaced by the single synthetic farewell string; in particular
`parse_input "ADD bob 123" = some ("add", ["bob", "123"])` and
`parse_input "exit" = some ("exit", ["Command 'exit' received. Good buy!"])`. -/
theorem parse_input_tokens (line c : String) (rest : List String)
    (h : pySplit line = c :: rest) :
    (parse_input line =
      if casefold c = "close" ∨ casefold c = "exit"
      then some (casefold c, [farewell (casefold c)])
      else some (casefold c, rest)) ∧
    parse_input "ADD bob 123" = some ("add", ["bob", "123"]) ∧
    parse_input "exit" = some ("exit", ["Command 'exit' received. Good buy!"]) := by
  refine ⟨?_, by decide, by decide⟩
  unfold parse_input
  rw [h]

/-- Witness for C2 at the line `"exit trailing args"`. -/
theorem parse_input_tokens_witness :
    pySplit "exit trailing args" = "exit" :: ["trailing", "args"] ∧
    parse_input "exit trailing args" = some ("exit", ["Command 'exit' received. Good buy!"]) := by
  constructor
  · decide
  · rw [(parse_input_tokens "exit trailing args" "exit" ["trailing", "args"] (by decide)).1]
    decide

/-- C3: for every farewell string `m`, executing `exit` (or `close`) with
args `[m]` raises the stop signal carrying `m` verbatim; the wrapping
decorator does not catch it, so the run loop sees it, prints `m` and
terminates cleanly. -/
theorem stop_signal_propagation (m : String) (st : Store) :
    execute_command st "exit" [m] = .error (.sigStop m) ∧
    execute_command st "close" [m] = .error (.sigStop m) ∧
    loop_step st "exit" [m] = .stopped m ∧
    loop_step st "close" [m] = .stopped m := by
  refine ⟨?_, ?_, ?_, ?_⟩ <;> rfl

/-- C4: for every command `c` outside the table and every args list,
`execute_inner` raises `CommandNotSupported` with the message
`command 'c' is not supported!`, the wrapper converts it into a result
string with the `Command execution failed` context label, and the store
is unchanged. -/
theorem unsupported_command (st : Store) (c : String) (args : List String)
    (h : c ∉ supported_commands) :
    execute_inner st c args =
      .error (.notSupported ("command '" ++ c ++ "' is not supported!")) ∧
    execute_command st c args =
      .ok ("Command execution failed" ++ ": " ++ ("command '" ++ c ++ "' is not supported!"), st) ∧
    containsStr ("Command execution failed" ++ ": " ++ ("command '" ++ c ++ "' is not supported!"))
      ("command '" ++ c ++ "' is not supported!") := by
  simp only [supported_commands, List.mem_cons, List.not_mem_nil, or_false, not_or] at h
  obtain ⟨h1, h2, h3, h4, h5, h6, h7⟩ := h
  have he : execute_inner st c args =
      .error (.notSupported ("command '" ++ c ++ "' is not supported!")) := by
    unfold execute_inner
    rw [if_neg (not_or.mpr ⟨h1, h2⟩), if_neg h3, if_neg h4, if_neg h5, if_neg h6, if_neg h7]
  refine ⟨he, ?_, containsStr_append_right _ _⟩
  unfold execute_command
  rw [he]
  rfl

/-- Witness for C4 at the command `"foo"` on the empty store. -/
theorem unsupported_command_witness :
    "foo" ∉ supported_commands ∧
    execute_command [] "foo" [] =
      .ok ("Command execution failed" ++ ": " ++ ("command '" ++ "foo" ++ "' is not supported!"),
           []) := by
  exact ⟨by decide, (unsupported_command [] "foo" [] (by decide)).2.1⟩

/-- C1: when username `u` is already stored with phone `p`, `add` with
args `(u, q)` fails with the `OperationalError` whose message contains
`already exist`, wrapped as a `Command 'add' failed: ...` result, and
the store is returned unchanged: `u` still maps to `p` and no entry was
added, removed or modified. -/
theorem add_duplicate_atomic (st : Store) (u p q : String)
    (h : getPhone st u = some p) :
    add_contact st [u, q] =
      .ok ("Command 'add' failed" ++ ": " ++ alreadyExistMsg u, st) ∧
    containsStr ("Command 'add' failed" ++ ": " ++ alreadyExistMsg u) "already exist" ∧
    getPhone st u = some p := by
  have hc : contains st u = true := contains_of_getPhone_some st u p h
  refine ⟨?_, ?_, h⟩
  · unfold add_contact add_contact_inner
    simp [List.getD, hc, input_error]
  · exact containsStr_append_left _ _ _
      (containsStr_append_left ("user with username " ++ u)
        " already exist. If you want to update number, please use 'change' command."
        "already exist" (by decide))

/-- Witness for C1: `bob` stored with `123`, then `add bob 999`. -/
theorem add_duplicate_atomic_witness :
    getPhone [("bob", "123")] "bob" = some "123" ∧
    add_contact [("bob", "123")] ["bob", "999"] =
      .ok ("Command 'add' failed" ++ ": " ++ alreadyExistMsg "bob", [("bob", "123")]) := by
  exact ⟨by decide, (add_duplicate_atomic [("bob", "123")] "bob" "123" "999" (by decide)).1⟩

/-- C6: for a username `u` absent from the store, `change (u, q)` fails
with a wrapped `OperationalError` whose message contains `doesn't exist`
(instructing use of `add`), and `phone (u)` likewise fails with a message
containing `doesn't exist`; in both cases the store is unchanged. -/
theorem missing_user_rejection (st : Store) (u q : String)
    (h : contains st u = false) :
    change_contact st [u, q] =
      .ok ("Command 'update' failed" ++ ": " ++ doesntExistMsg u, st) ∧
    get_contact st [u] =
      .ok ("Command 'phone' failed" ++ ": " ++ tryAnotherMsg u, st) ∧
    containsStr ("Command 'update' failed" ++ ": " ++ doesntExistMsg u) "doesn't exist" ∧
    containsStr ("Command 'phone' failed" ++ ": " ++ tryAnotherMsg u) "doesn't exist" := by
  refine ⟨?_, ?_, ?_, ?_⟩
  · unfold change_contact change_contact_inner
    simp [List.getD, h, input_error]
  · unfold get_contact get_contact_inner
    simp [List.getD, h, input_error]
  · exact containsStr_append_left _ _ _
      (containsStr_append_left ("user with username " ++ u)
        " doesn't exist. If you want to add number, please use 'add' command."
        "doesn't exist" (by decide))
  · exact containsStr_append_left _ _ _
      (containsStr_append_left ("user with username " ++ u)
        " doesn't exist. Try another username."
        "doesn't exist" (by decide))

/-- Witness for C6: `carol` on the empty store. -/
theorem missing_user_rejection_witness :
    contains [] "carol" = false ∧
    change_contact [] ["carol", "1"] =
      .ok ("Command 'update' failed" ++ ": " ++ doesntExistMsg "carol", []) ∧
    get_contact [] ["carol"] =
      .ok ("Command 'phone' failed" ++ ": " ++ tryAnotherMsg "carol", []) := by
  have h := missing_user_rejection [] "carol" "1" (by decide)
  exact ⟨by decide, h.1, h.2.1⟩

/-- C7: `add` and `change` fail with a wrapped arity-mismatch
`OperationalError` for every args list whose length is not exactly 2
(too few and too many alike), leaving the store unchanged; `phone` fails
likewise for every length other than exactly 1; `hello` and `all` with
extra args succeed, prepending the warning line to their normal output. -/
theorem exact_arity (st : Store) (args : List String) :
    (args.length ≠ 2 →
      add_contact st args =
        .ok ("Command 'add' failed" ++ ": " ++ twoArgsMsg args, st) ∧
      change_contact st args =
        .ok ("Command 'update' failed" ++ ": " ++ twoArgsMsg args, st)) ∧
    (args.length ≠ 1 →
      get_contact st args =
        .ok ("Command 'phone' failed" ++ ": " ++ oneArgMsg args, st)) ∧
    (args ≠ [] →
      say_hello args = argsWarning args ++ "How can I help you?" ∧
      print_all_contacts st args =
        argsWarning args ++ "All Records: \n"
          ++ String.join (st.map (fun e => "\n" ++ print_user_phone e.1 e.2))) := by
  refine ⟨fun h2 => ⟨?_, ?_⟩, fun h1 => ?_, fun hn => ⟨?_, ?_⟩⟩
  · unfold add_contact add_contact_inner
    rw [if_pos h2]
    rfl
  · unfold change_contact change_contact_inner
    rw [if_pos h2]
    rfl
  · unfold get_contact get_contact_inner
    rw [if_pos h1]
    rfl
  · cases args with
    | nil => exact absurd rfl hn
    | cons a t => rfl
  · cases args with
    | nil => exact absurd rfl hn
    | cons a t => rfl

/-- Witness for C7: `add bob` (1 arg) and `phone bob 1 2` (3 args) fail,
`all x` succeeds with the warning line. -/
theorem exact_arity_witness :
    ((["bob"] : List String).length ≠ 2 ∧
      add_contact [] ["bob"] =
        .ok ("Command 'add' failed" ++ ": " ++ twoArgsMsg ["bob"], [])) ∧
    ((["bob", "1", "2"] : List String).length ≠ 1 ∧
      get_contact [] ["bob", "1", "2"] =
        .ok ("Command 'phone' failed" ++ ": " ++ oneArgMsg ["bob", "1", "2"], [])) ∧
    ((["x"] : List String) ≠ [] ∧
      say_hello ["x"] = argsWarning ["x"] ++ "How can I help you?") := by
  refine ⟨⟨by decide, ((exact_arity [] ["bob"]).1 (by decide)).1⟩,
          ⟨by decide, (exact_arity [] ["bob", "1", "2"]).2.1 (by decide)⟩,
          ⟨by decide, ((exact_arity [] ["x"]).2.2 (by decide)).1⟩⟩

/-- C8: when username `u` maps to phone `p`, `phone (u)` succeeds with
the `User {username} phone: {phone}` line prefixed by `Record found:`
(a string containing `p`), and the store is unchanged by the lookup. -/
theorem phone_lookup_success (st : Store) (u p : String)
    (h : getPhone st u = some p) :
    get_contact st [u] = .ok ("Record found: \n" ++ print_user_phone u p, st) ∧
    containsStr ("Record found: \n" ++ print_user_phone u p) p := by
  have hc : contains st u = true := contains_of_getPhone_some st u p h
  constructor
  · unfold get_contact get_contact_inner
    simp [List.getD, hc, h, input_error]
  · exact containsStr_append_left "Record found: \n" (print_user_phone u p) p
      (containsStr_append_right ("User " ++ u ++ " phone: ") p)

/-- Witness for C8: `add bob 123` then `phone bob` reports `123`. -/
theorem phone_lookup_success_witness :
    getPhone [("bob", "123")] "bob" = some "123" ∧
    get_contact [("bob", "123")] ["bob"] =
      .ok ("Record found: \n" ++ print_user_phone "bob" "123", [("bob", "123")]) := by
  exact ⟨by decide, (phone_lookup_success [("bob", "123")] "bob" "123" (by decide)).1⟩

/-- C5: `all` never fails: `execute_command` always returns `.ok` with
the listing and the unchanged store; with empty args the output is the
header followed by one `User {username} phone: {phone}` line per stored
contact in insertion order (just the header on the empty store); with
non-empty args the warning line is prepended; and after `add alice 111`
then `add bob 222` the listing shows alice before bob. -/
theorem all_listing (st : Store) (args : List String) :
    execute_command st "all" args = .ok (print_all_contacts st args, st) ∧
    print_all_contacts st [] =
      "All Records: \n" ++ String.join (st.map (fun e => "\n" ++ print_user_phone e.1 e.2)) ∧
    print_all_contacts [] [] = "All Records: \n" ∧
    (args ≠ [] →
      print_all_contacts st args =
        argsWarning args ++ "All Records: \n"
          ++ String.join (st.map (fun e => "\n" ++ print_user_phone e.1 e.2))) ∧
    add_contact [] ["alice", "111"] =
      .ok ("Contact " ++ "alice" ++ " created with phone: " ++ "111" ++ ".",
           [("alice", "111")]) ∧
    add_contact [("alice", "111")] ["bob", "222"] =
      .ok ("Contact " ++ "bob" ++ " created with phone: " ++ "222" ++ ".",
           [("alice", "111"), ("bob", "222")]) ∧
    print_all_contacts [("alice", "111"), ("bob", "222")] [] =
      "All Records: \n\nUser alice phone: 111\nUser bob phone: 222" := by
  refine ⟨rfl, rfl, by decide, fun hn => ?_, by rfl, by rfl, by decide⟩
  cases args with
  | nil => exact absurd rfl hn
  | cons a t => rfl

/-- Witness for C5 at the store `bob ↦ 123` and args `["x"]`. -/
theorem all_listing_witness :
    (["x"] : List String) ≠ [] ∧
    print_all_contacts [("bob", "123")] ["x"] =
      argsWarning ["x"] ++ "All Records: \n"
        ++ String.join ([(("bob" : String), ("123" : String))].map
            (fun e => "\n" ++ print_user_phone e.1 e.2)) := by
  exact ⟨by decide, (all_listing [("bob", "123")] ["x"]).2.2.2.1 (by decide)⟩

theorem pySplitGo_all_ws (l : List Char) (h : ∀ c ∈ l, c.isWhitespace = true) :
    pySplitGo l [] = [] := by
  induction l with
  | nil => rfl
  | cons c cs ih =>
    have hc : c.isWhitespace = true := h c (List.mem_cons_self c cs)
    simp only [pySplitGo, hc, List.isEmpty_nil, if_true]
    exact ih (fun d hd => h d (List.mem_cons_of_mem c hd))

/-- C9: on an empty or whitespace-only input line `parse_input` has no
token to unpack (the `ValueError` case, modelled as `none`), which is
neither a recoverable error nor the stop signal, so the run loop's
iteration is fatal: `parse_input` is well-defined only on lines with at
least one token. -/
theorem blank_line_fatal (st : Store) (line : String)
    (h : ∀ c ∈ line.data, c.isWhitespace = true) :
    parse_input line = none ∧ main_step st line = .fatal := by
  have hs : pySplit line = [] := pySplitGo_all_ws line.data h
  have h1 : parse_input line = none := by
    unfold parse_input
    rw [hs]
  exact ⟨h1, by unfold main_step; rw [h1]⟩

/-- Witness for C9 at the whitespace-only line `"  "`. -/
theorem blank_line_fatal_witness :
    (∀ c ∈ ("  " : String).data, c.isWhitespace = true) ∧
    (parse_input "  " = none ∧ main_step [] "  " = .fatal) := by
  exact ⟨by decide, blank_line_fatal [] "  " (by decide)⟩

/-- C10: the contact store is class-level, not per-instance, state:
constructing a `CliHelperBot` leaves the store untouched (`__init__`
only builds the command table), and every instance reads and writes the
one shared store, so a contact added through one instance is observable
through any other instance. -/
theorem users_cache_class_level (w : Store) (i1 i2 : BotInstance) (u p : String)
    (h : contains w u = false) :
    (construct w).2 = w ∧
    (∀ args, add_contact_via i1 w args = add_contact_via i2 w args) ∧
    add_contact_via i1 w [u, p] =
      .ok ("Contact " ++ u ++ " created with phone: " ++ p ++ ".", update_number w u p) ∧
    get_contact_via i2 (update_number w u p) [u] =
      .ok ("Record found: \n" ++ print_user_phone u p, update_number w u p) := by
  refine ⟨rfl, fun args => rfl, ?_, ?_⟩
  · unfold add_contact_via add_contact add_contact_inner
    simp [List.getD, h, input_error]
  · have hget : getPhone (update_number w u p) u = some p := getPhone_update_number w u p
    have hcon : contains (update_number w u p) u = true :=
      contains_of_getPhone_some _ u p hget
    unfold get_contact_via get_contact get_contact_inner
    simp [List.getD, hcon, hget, input_error]

/-- Witness for C10: `bob` added through one instance is visible through
another instance holding nothing but the command table. -/
theorem users_cache_class_level_witness :
    contains [] "bob" = false ∧
    add_contact_via ⟨[]⟩ [] ["bob", "123"] =
      .ok ("Contact " ++ "bob" ++ " created with phone: " ++ "123" ++ ".",
           update_number [] "bob" "123") ∧
    get_contact_via ⟨supported_commands⟩ (update_number [] "bob" "123") ["bob"] =
      .ok ("Record found: \n" ++ print_user_phone "bob" "123", update_number [] "bob" "123") := by
  have h := users_cache_class_level [] ⟨[]⟩ ⟨supported_commands⟩ "bob" "123" (by decide)
  exact ⟨by decide, h.2.2.1, h.2.2.2⟩
